import Mathlib

/-!
Verification of the text-to-structure extraction pipeline of
`src/ai/process_receipt.py` (class `ReceiptProcessor`).

The Python code is shallowly embedded: each extractor becomes a total Lean
function; Python exceptions that can escape a function are modelled with
`Except String`; Python `float`/`int` results are modelled as `ℚ`/`ℤ`
(the decimal strings reaching them are exactly representable, and no float
arithmetic is performed on them).  The regular expressions of the source are
embedded as abstract syntax trees (`RE`) and executed by a backtracking
matcher `mrun` that reproduces Python `re` semantics for the fragment used:
leftmost search, greedy quantifiers, ordered alternation, capture groups
(last capture wins, absent groups give `None`), `\b` word boundaries and
multiline `^`.  Inline `(?i)` flags are modelled as applying to the whole
pattern (CPython < 3.11 semantics, which is the only reading under which
`parse_total`'s third pattern compiles at all).  `datetime.strptime` is
modelled after CPython's `_strptime`: `%Y` matches exactly four digits,
`%y` exactly two (2000+y for y ≤ 68 else 1900+y), followed by calendar
validation, and a full-consumption check on the preferred prefix match.
The current date (`datetime.now()`) is a parameter `today`, and the image
preprocessing / OCR stage is a parameter `acquired : Except String String`
(its failure or the text it produces), matching the single recovery
boundary in `process_receipt`.
-/

set_option autoImplicit false
set_option maxRecDepth 8192

namespace ReceiptProc

/-! ### Python string primitives -/

/-- The characters of Python's `\s` class and of `str.strip()`'s default set
(ASCII fragment). -/
def pyIsSpace (c : Char) : Bool :=
  c = ' ' || c = '\t' || c = '\n' || c = '\r' || c = Char.ofNat 11 || c = Char.ofNat 12

def asciiUpper (c : Char) : Bool := 'A' ≤ c && c ≤ 'Z'
def asciiLower (c : Char) : Bool := 'a' ≤ c && c ≤ 'z'
def asciiAlpha (c : Char) : Bool := asciiUpper c || asciiLower c
def asciiDigit (c : Char) : Bool := '0' ≤ c && c ≤ '9'

/-- Word characters for `\b` (`[A-Za-z0-9_]`; the texts considered contain no
further word characters). -/
def wordChar (c : Char) : Bool := asciiAlpha c || asciiDigit c || c = '_'

/-- `str.strip()` on the underlying character list. -/
def pyStripList (l : List Char) : List Char :=
  ((l.dropWhile pyIsSpace).reverse.dropWhile pyIsSpace).reverse

/-- Python `str.strip()`. -/
def pyStrip (s : String) : String := ⟨pyStripList s.data⟩

/-- Python `str.lower()` (ASCII fragment). -/
def pyLower (s : String) : String := ⟨s.data.map Char.toLower⟩

/-- Python `str.capitalize()`: first character upper-cased, rest lower-cased. -/
def pyCapitalize (s : String) : String :=
  match s.data with
  | [] => ""
  | c :: cs => ⟨c.toUpper :: cs.map Char.toLower⟩

/-- Python `len` on a string (number of characters). -/
def sLen (s : String) : Nat := s.data.length

/-- Python `s.startswith(pre)`. -/
def pyStartsWith (s pre : String) : Bool := pre.data.isPrefixOf s.data

/-- Python `s.replace(c, '')` for a single character. -/
def removeChar (c : Char) (s : String) : String := ⟨s.data.filter (· ≠ c)⟩

/-- Splitting a character list on a separator character; mirrors Python
`str.split(sep)` for a one-character separator (`[[]]` on empty input). -/
def splitOnChar (sep : Char) : List Char → List (List Char)
  | [] => [[]]
  | c :: rest =>
    let r := splitOnChar sep rest
    if c = sep then [] :: r
    else
      match r with
      | [] => [[c]]
      | h :: t => (c :: h) :: t

/-- Python `s.split(sep)` for a one-character separator. -/
def pySplit (s : String) (sep : Char) : List String :=
  (splitOnChar sep s.data).map (fun l => (⟨l⟩ : String))

/-- Python `c in s` for a character. -/
def containsChar (s : String) (c : Char) : Bool := s.data.any (· = c)

/-- Python `sub in s` for strings: contiguous substring test. -/
def hasSub (needle : List Char) : List Char → Bool
  | [] => needle.isPrefixOf []
  | c :: t => needle.isPrefixOf (c :: t) || hasSub needle t

def digitVal (c : Char) : Nat := c.toNat - 48

def digitsToNat (l : List Char) : Nat := l.foldl (fun a c => 10 * a + digitVal c) 0

/-- Python `int(s)` on the fragment reachable in the source: the argument is a
non-empty digit string (captured by `\d+`); anything else raises, i.e. `none`. -/
def pyInt (s : String) : Option Int :=
  if (pyStrip s).data ≠ [] && (pyStrip s).data.all asciiDigit then
    some ((digitsToNat (pyStrip s).data : Nat) : Int)
  else none

/-- Python `float(s)` on the fragment reachable in the source: optional
surrounding whitespace, then an unsigned decimal numeral `digits`, `digits.`,
`.digits` or `digits.digits`; anything else (e.g. a stray letter or currency
sign) raises `ValueError`, i.e. `none`. -/
def pyFloat (s : String) : Option ℚ :=
  match splitOnChar '.' (pyStrip s).data with
  | [ip] =>
    if ip ≠ [] && ip.all asciiDigit then some ((digitsToNat ip : Nat) : ℚ) else none
  | [ip, fp] =>
    if (ip ++ fp) ≠ [] && ip.all asciiDigit && fp.all asciiDigit then
      some (mkRat (digitsToNat ip * 10 ^ fp.length + digitsToNat fp) (10 ^ fp.length))
    else none
  | _ => none

/-! ### A backtracking regular-expression engine

Results of a match attempt are listed in Python's backtracking preference
order; `re.search` takes the first result at the leftmost position that has
one.  `prev` is the character immediately before the current position (for
`\b` and multiline `^`). -/

/-- Abstract syntax of the regular-expression fragment used by the source. -/
inductive RE where
  | eps : RE
  | cls : (Char → Bool) → RE
  | cat : RE → RE → RE
  | alt : RE → RE → RE
  | star : RE → RE
  | group : Nat → RE → RE
  | wordB : RE
  | lineStart : RE

/-- Capture environment: group index paired with captured characters, most
recent capture first. -/
abbrev Caps := List (Nat × List Char)

def boundaryOk (prev next : Option Char) : Bool :=
  (match prev with | some c => wordChar c | none => false) !=
  (match next with | some c => wordChar c | none => false)

/-- One level of the matcher, parameterised by the continuation `starRec`
used for a further `star` iteration (which burns one unit of fuel). -/
def mrunAux (starRec : RE → Option Char → List Char → Caps → List (Option Char × List Char × Caps)) :
    RE → Option Char → List Char → Caps → List (Option Char × List Char × Caps)
  | .eps, prev, s, caps => [(prev, s, caps)]
  | .cls p, _, s, caps =>
    match s with
    | [] => []
    | c :: rest => if p c then [(some c, rest, caps)] else []
  | .cat a b, prev, s, caps =>
    (mrunAux starRec a prev s caps).flatMap fun t => mrunAux starRec b t.1 t.2.1 t.2.2
  | .alt a b, prev, s, caps => mrunAux starRec a prev s caps ++ mrunAux starRec b prev s caps
  | .star a, prev, s, caps =>
    ((mrunAux starRec a prev s caps).flatMap fun t =>
      if t.2.1.length < s.length then starRec (.star a) t.1 t.2.1 t.2.2 else []) ++
      [(prev, s, caps)]
  | .group n a, prev, s, caps =>
    (mrunAux starRec a prev s caps).map fun t =>
      (t.1, t.2.1, (n, s.take (s.length - t.2.1.length)) :: t.2.2)
  | .wordB, prev, s, caps => if boundaryOk prev s.head? then [(prev, s, caps)] else []
  | .lineStart, prev, s, caps =>
    if prev = none || prev = some '\n' then [(prev, s, caps)] else []

/-- The matcher: star iterations each consume at least one character, so fuel
`s.length + 1` is always sufficient. -/
def mrun : Nat → RE → Option Char → List Char → Caps →
    List (Option Char × List Char × Caps)
  | 0 => mrunAux (fun _ _ _ _ => [])
  | fuel + 1 => mrunAux (mrun fuel)

/-- A match: the matched substring (`group(0)`) and the captures. -/
structure RMatch where
  group0 : List Char
  caps : Caps
deriving Repr, DecidableEq

/-- Python `match.group(n)`: `None` when the group did not participate. -/
def RMatch.group (m : RMatch) (n : Nat) : Option String :=
  (m.caps.find? (fun p => p.1 = n)).map fun p => (⟨p.2⟩ : String)

/-- Python `match.group(0)` as a string. -/
def RMatch.matched (m : RMatch) : String := ⟨m.group0⟩

/-- Attempt a match anchored at the current position. -/
def matchAt (r : RE) (prev : Option Char) (s : List Char) :
    Option (List Char × Caps × Option Char × List Char) :=
  match mrun (s.length + 1) r prev s [] with
  | [] => none
  | (p', rest, caps) :: _ => some (s.take (s.length - rest.length), caps, p', rest)

/-- Scan left to right for the first position admitting a match; also returns
the state after the match (for `findall`). -/
def searchRun (r : RE) : Option Char → List Char → Option (RMatch × Option Char × List Char)
  | prev, s =>
    match matchAt r prev s with
    | some (g0, caps, p', rest) => some (⟨g0, caps⟩, p', rest)
    | none =>
      match s with
      | [] => none
      | c :: rest => searchRun r (some c) rest

/-- Python `re.search`. -/
def reSearch (r : RE) (text : String) : Option RMatch :=
  (searchRun r none text.data).map (·.1)

/-- Python `re.findall` for a pattern with one capture group: the successive
non-overlapping matches' group-1 captures. -/
def findAllRun : Nat → RE → Option Char → List Char → List String
  | 0, _, _, _ => []
  | fuel + 1, r, prev, s =>
    match searchRun r prev s with
    | none => []
    | some (m, p', rest) =>
      let g1 := ((m.caps.find? (fun p => p.1 = 1)).map (·.2)).getD []
      (⟨g1⟩ : String) ::
        (if m.group0.isEmpty then
          match rest with
          | [] => []
          | c :: t => findAllRun fuel r (some c) t
        else findAllRun fuel r p' rest)

def reFindAllGroup1 (r : RE) (text : String) : List String :=
  findAllRun (text.data.length + 1) r none text.data

/-! ### Pattern constructors -/

def RE.opt (a : RE) : RE := .alt a .eps

def RE.plus (a : RE) : RE := .cat a (.star a)

def seqRE (l : List RE) : RE := l.foldr .cat .eps

def altsRE : List RE → RE
  | [] => .cls (fun _ => false)
  | [x] => x
  | x :: xs => .alt x (altsRE xs)

/-- A literal character. -/
def chRE (c : Char) : RE := .cls (· = c)

/-- A literal character under `IGNORECASE`. -/
def chCI (c : Char) : RE := .cls (fun x => x.toLower = c.toLower)

def litRE (s : String) : RE := seqRE (s.data.map chRE)

def litCI (s : String) : RE := seqRE (s.data.map chCI)

def wsRE : RE := .cls pyIsSpace

def digitRE : RE := .cls asciiDigit

/-! ### The concrete patterns of `process_receipt.py`

The currency character class in the source file literally consists of the six
characters `$ â ‚ ¬ Â Ł` (the file stores a doubly-encoded `$€£`); the class
is embedded with exactly those characters. -/

def currencyCls : RE :=
  .cls (fun c => c = '$' || c = 'â' || c = '‚' || c = '¬' || c = 'Â' || c = 'Ł')

/-- `\d{1,2}` (greedy). -/
def d12RE : RE := .cat digitRE (RE.opt digitRE)

/-- `\d{2,4}` (greedy). -/
def d24RE : RE := seqRE [digitRE, digitRE, RE.opt (.cat digitRE (RE.opt digitRE))]

/-- `\d{4}`. -/
def d4RE : RE := seqRE [digitRE, digitRE, digitRE, digitRE]

/-- `\d{2}`. -/
def d2RE : RE := .cat digitRE digitRE

def monthNames : List String :=
  ["Jan", "Feb", "Mar", "Apr", "May", "Jun", "Jul", "Aug", "Sep", "Oct", "Nov", "Dec"]

/-- `(Jan|Feb|...|Dec)` as group 1, under `re.IGNORECASE`. -/
def monthAltRE : RE := .group 1 (altsRE (monthNames.map litCI))

/-- `[a-z]` under `re.IGNORECASE`. -/
def alphaCIRE : RE := .cls asciiAlpha

/-- `r'\b\d{1,2}/\d{1,2}/\d{2,4}\b'` -/
def datePat1 : RE := seqRE [.wordB, d12RE, chRE '/', d12RE, chRE '/', d24RE, .wordB]

/-- `r'\b\d{1,2}-\d{1,2}-\d{2,4}\b'` -/
def datePat2 : RE := seqRE [.wordB, d12RE, chRE '-', d12RE, chRE '-', d24RE, .wordB]

/-- `r'\b\d{4}-\d{2}-\d{2}\b'` -/
def datePat3 : RE := seqRE [.wordB, d4RE, chRE '-', d2RE, chRE '-', d2RE, .wordB]

/-- `r'\b(Jan|...|Dec)[a-z]* \d{1,2},? \d{4}\b'` -/
def datePat4 : RE :=
  seqRE [.wordB, monthAltRE, .star alphaCIRE, chRE ' ', d12RE, RE.opt (chRE ','),
    chRE ' ', d4RE, .wordB]

/-- `r'\b\d{1,2} (Jan|...|Dec)[a-z]* \d{4}\b'` -/
def datePat5 : RE :=
  seqRE [.wordB, d12RE, chRE ' ', monthAltRE, .star alphaCIRE, chRE ' ', d4RE, .wordB]

def datePatterns : List RE := [datePat1, datePat2, datePat3, datePat4, datePat5]

def vendorLabels : List String := ["vendor", "merchant", "store", "restaurant", "cafe", "shop"]

def greetWords : List String := ["thank you", "visit again", "welcome to"]

/-- `.` (no DOTALL). -/
def dotRE : RE := .cls (· ≠ '\n')

def upperRE : RE := .cls asciiUpper

def lowerRE : RE := .cls asciiLower

/-- `[A-Z][a-z]+` -/
def capWordRE : RE := .cat upperRE (RE.plus lowerRE)

/-- `r'(?i)(vendor|merchant|store|restaurant|cafe|shop):?\s*(.+)'` -/
def vendorPat1 : RE :=
  seqRE [.group 1 (altsRE (vendorLabels.map litCI)), RE.opt (chRE ':'), .star wsRE,
    .group 2 (RE.plus dotRE)]

/-- `r'(?i)(thank you|visit again|welcome to)\s*(.+)'` -/
def vendorPat2 : RE :=
  seqRE [.group 1 (altsRE (greetWords.map litCI)), .star wsRE, .group 2 (RE.plus dotRE)]

/-- `r'^[A-Z][a-z]+(\s+[A-Z][a-z]+)*\s+(Inc|LLC|Corp|Ltd|Pty)\b'` (multiline). -/
def vendorPat3 : RE :=
  seqRE [.lineStart, capWordRE, .star (.group 1 (.cat (RE.plus wsRE) capWordRE)),
    RE.plus wsRE, .group 2 (altsRE (["Inc", "LLC", "Corp", "Ltd", "Pty"].map litRE)), .wordB]

/-- `r'^[A-Z][a-z]+(\s+[A-Z][a-z]+)*\s+(Restaurant|Cafe|Store|Market|Shop)\b'` (multiline). -/
def vendorPat4 : RE :=
  seqRE [.lineStart, capWordRE, .star (.group 1 (.cat (RE.plus wsRE) capWordRE)),
    RE.plus wsRE,
    .group 2 (altsRE (["Restaurant", "Cafe", "Store", "Market", "Shop"].map litRE)), .wordB]

def vendorPatterns : List RE := [vendorPat1, vendorPat2, vendorPat3, vendorPat4]

/-- `[\d,]+\.\d{2}` -/
def amountRE : RE :=
  seqRE [RE.plus (.cls (fun c => asciiDigit c || c = ',')), chRE '.', digitRE, digitRE]

/-- `r'(?i)(total|amount|balance|due):?\s*[$â‚¬ÂŁ]?\s*([\d,]+\.\d{2})'` -/
def totalPat1 : RE :=
  seqRE [.group 1 (altsRE (["total", "amount", "balance", "due"].map litCI)),
    RE.opt (chRE ':'), .star wsRE, RE.opt currencyCls, .star wsRE, .group 2 amountRE]

/-- `r'(?i)(subtotal|total|amount)\s*[$â‚¬ÂŁ]?\s*([\d,]+\.\d{2})'` -/
def totalPat2 : RE :=
  seqRE [.group 1 (altsRE (["subtotal", "total", "amount"].map litCI)),
    .star wsRE, RE.opt currencyCls, .star wsRE, .group 2 amountRE]

/-- `r'[$â‚¬ÂŁ]?\s*([\d,]+\.\d{2})\s*(?i)(total|due|balance)'` -/
def totalPat3 : RE :=
  seqRE [RE.opt currencyCls, .star wsRE, .group 1 amountRE, .star wsRE,
    .group 2 (altsRE (["total", "due", "balance"].map litCI))]

def totalPatterns : List RE := [totalPat1, totalPat2, totalPat3]

/-- `r'[$â‚¬ÂŁ]?\s*([\d,]+\.\d{2})'` (the `findall` fallback pattern). -/
def amountSearchPat : RE := seqRE [RE.opt currencyCls, .star wsRE, .group 1 amountRE]

/-- `[$â‚¬ÂŁ]?\s*[\d,]+\.\d{2}` (the price sub-pattern of the item pattern). -/
def priceRE : RE := seqRE [RE.opt currencyCls, .star wsRE, amountRE]

/-- `r'([A-Za-z\s]+)\s+(\d+)\s+@\s+([$â‚¬ÂŁ]?\s*[\d,]+\.\d{2})\s+([$â‚¬ÂŁ]?\s*[\d,]+\.\d{2})'` -/
def itemPat : RE :=
  seqRE [.group 1 (RE.plus (.cls (fun c => asciiAlpha c || pyIsSpace c))),
    RE.plus wsRE, .group 2 (RE.plus digitRE), RE.plus wsRE, chRE '@', RE.plus wsRE,
    .group 3 priceRE, RE.plus wsRE, .group 4 priceRE]

/-! ### `datetime.strptime` for the formats used

CPython's `_strptime` compiles `%m` to `(1[0-2]|0[1-9]|[1-9])`, `%d` to
`(3[01]|[12]\d|0[1-9]|[1-9])`, `%Y` to exactly four digits and `%y` to exactly
two digits (mapped to 2000+y for y ≤ 68, else 1900+y); the preferred prefix
match must consume the whole string, and the resulting numbers must form a
valid calendar date (else `ValueError`). -/

/-- Character parsers return the possible (value, rest) outcomes in regex
preference order. -/
def pMonthRe : List Char → List (Nat × List Char)
  | '1' :: c :: rest =>
    (if '0' ≤ c && c ≤ '2' then [(10 + digitVal c, rest)] else []) ++
      (if '1' ≤ '1' then [(1, c :: rest)] else [])
  | [c] => if '1' ≤ c && c ≤ '9' then [(digitVal c, [])] else []
  | '0' :: c :: rest => if '1' ≤ c && c ≤ '9' then [(digitVal c, rest)] else []
  | c :: rest => if '2' ≤ c && c ≤ '9' then [(digitVal c, rest)] else []
  | [] => []

def pDayRe : List Char → List (Nat × List Char)
  | [] => []
  | [c] => if '1' ≤ c && c ≤ '9' then [(digitVal c, [])] else []
  | c :: c2 :: rest =>
    (if c = '3' && ('0' ≤ c2 && c2 ≤ '1') then [(30 + digitVal c2, rest)] else []) ++
      (if ('1' ≤ c && c ≤ '2') && asciiDigit c2 then [(10 * digitVal c + digitVal c2, rest)] else []) ++
      (if c = '0' && ('1' ≤ c2 && c2 ≤ '9') then [(digitVal c2, rest)] else []) ++
      (if '1' ≤ c && c ≤ '9' then [(digitVal c, c2 :: rest)] else [])

def pY4 : List Char → List (Nat × List Char)
  | a :: b :: c :: d :: rest =>
    if asciiDigit a && asciiDigit b && asciiDigit c && asciiDigit d then
      [(digitsToNat [a, b, c, d], rest)]
    else []
  | _ => []

def pY2 : List Char → List (Nat × List Char)
  | a :: b :: rest =>
    if asciiDigit a && asciiDigit b then
      [(if digitsToNat [a, b] ≤ 68 then 2000 + digitsToNat [a, b] else 1900 + digitsToNat [a, b],
        rest)]
    else []
  | _ => []

def isLeap (y : Nat) : Bool := (y % 4 = 0 && y % 100 ≠ 0) || y % 400 = 0

def daysInMonth (y m : Nat) : Nat :=
  if m = 2 then (if isLeap y then 29 else 28)
  else if m = 4 || m = 6 || m = 9 || m = 11 then 30
  else 31

/-- `datetime(year, month, day)` accepts 1 ≤ year ≤ 9999 and a day valid for
the month (the month fields produced by the parsers above are already 1–12). -/
def validDate (y m d : Nat) : Bool :=
  1 ≤ y && y ≤ 9999 && 1 ≤ d && d ≤ daysInMonth y m

/-- Run three field parsers separated by a literal separator, take the
preferred prefix match, and require full consumption. -/
def runFmt3 (pa pb pc : List Char → List (Nat × List Char)) (sep : Char) (s : String) :
    Option (Nat × Nat × Nat) :=
  let cands := (pa s.data).flatMap fun t =>
    match t.2 with
    | c :: r2 =>
      if c = sep then
        (pb r2).flatMap fun u =>
          match u.2 with
          | c2 :: r4 =>
            if c2 = sep then (pc r4).map fun v => ((t.1, u.1, v.1), v.2) else []
          | [] => []
      else []
    | [] => []
  match cands with
  | [] => none
  | (tri, rest) :: _ => if rest = [] then some tri else none

/-- `datetime.strptime(s, '%m/%d/%Y')`, returning (year, month, day). -/
def strptime_mdY_slash (s : String) : Option (Nat × Nat × Nat) :=
  match runFmt3 pMonthRe pDayRe pY4 '/' s with
  | some (m, d, y) => if validDate y m d then some (y, m, d) else none
  | none => none

/-- `datetime.strptime(s, '%Y-%m-%d')`. -/
def strptime_Ymd_dash (s : String) : Option (Nat × Nat × Nat) :=
  match runFmt3 pY4 pMonthRe pDayRe '-' s with
  | some (y, m, d) => if validDate y m d then some (y, m, d) else none
  | none => none

/-- `datetime.strptime(s, '%m-%d-%Y')`. -/
def strptime_mdY_dash (s : String) : Option (Nat × Nat × Nat) :=
  match runFmt3 pMonthRe pDayRe pY4 '-' s with
  | some (m, d, y) => if validDate y m d then some (y, m, d) else none
  | none => none

/-- `datetime.strptime(s, '%d-%m-%Y')`. -/
def strptime_dmY_dash (s : String) : Option (Nat × Nat × Nat) :=
  match runFmt3 pDayRe pMonthRe pY4 '-' s with
  | some (d, m, y) => if validDate y m d then some (y, m, d) else none
  | none => none

/-- `datetime.strptime(s, '%m/%d/%y')`. -/
def strptime_mdy_slash (s : String) : Option (Nat × Nat × Nat) :=
  match runFmt3 pMonthRe pDayRe pY2 '/' s with
  | some (m, d, y) => if validDate y m d then some (y, m, d) else none
  | none => none

/-- `datetime.strptime(s, '%d/%m/%y')`. -/
def strptime_dmy_slash (s : String) : Option (Nat × Nat × Nat) :=
  match runFmt3 pDayRe pMonthRe pY2 '/' s with
  | some (d, m, y) => if validDate y m d then some (y, m, d) else none
  | none => none

def pad2 (n : Nat) : String := if n < 10 then "0" ++ toString n else toString n

/-- `parsed.strftime('%Y-%m-%d')` (glibc prints the year unpadded). -/
def fmtISO (ymd : Nat × Nat × Nat) : String :=
  toString ymd.1 ++ "-" ++ pad2 ymd.2.1 ++ "-" ++ pad2 ymd.2.2

/-! ### The extractors -/

/-- The body of `parse_date`'s inner format loop
(`for fmt in ('%m-%d-%Y', '%d-%m-%Y', '%m/%d/%y', '%d/%m/%y')`): the first
format that parses wins. -/
def tryDateFormats (s : String) : Option (Nat × Nat × Nat) :=
  match strptime_mdY_dash s with
  | some v => some v
  | none =>
    match strptime_dmY_dash s with
    | some v => some v
    | none =>
      match strptime_mdy_slash s with
      | some v => some v
      | none => strptime_dmy_slash s

/-- The message of the `UnboundLocalError` raised when all four fallback
formats fail and `parsed.strftime` reads the never-assigned variable. -/
def unboundLocalMsg : String :=
  "UnboundLocalError: local variable parsed referenced before assignment"

def valueErrorFloatMsg : String := "ValueError: could not convert string to float"

def valueErrorIntMsg : String := "ValueError: invalid literal for int"

def attributeErrorMsg : String := "AttributeError: NoneType object has no attribute"

/-- `ReceiptProcessor.parse_date`, pattern loop.  A slash-separated or
`YYYY-…` dash-separated match that fails `strptime` raises `ValueError`,
which the `except ValueError: continue` turns into trying the next pattern;
in the remaining branch a match for which all four fallback formats fail
leaves `parsed` unassigned, and `parsed.strftime` raises an uncaught
`UnboundLocalError`. -/
def parse_dateGo (text : String) : List RE → Except String (Option String)
  | [] => .ok none
  | p :: ps =>
    match reSearch p text with
    | none => parse_dateGo text ps
    | some m =>
      if containsChar (RMatch.matched m) '/' then
        match strptime_mdY_slash (RMatch.matched m) with
        | some v => .ok (some (fmtISO v))
        | none => parse_dateGo text ps
      else if containsChar (RMatch.matched m) '-'
          && sLen ((pySplit (RMatch.matched m) '-').headD "") = 4 then
        match strptime_Ymd_dash (RMatch.matched m) with
        | some v => .ok (some (fmtISO v))
        | none => parse_dateGo text ps
      else
        match tryDateFormats (RMatch.matched m) with
        | some v => .ok (some (fmtISO v))
        | none => .error unboundLocalMsg

/-- `ReceiptProcessor.parse_date`. -/
def parse_date (text : String) : Except String (Option String) :=
  parse_dateGo text datePatterns

/-- The fallback of `parse_vendor`: first of the first three lines that,
stripped, is longer than 2 characters and starts with neither `Date:` nor
`Time:`; otherwise `"Unknown Vendor"`. -/
def vendorFallback : List String → String
  | [] => "Unknown Vendor"
  | l :: ls =>
    if 2 < sLen (pyStrip l) && !pyStartsWith (pyStrip l) "Date:"
        && !pyStartsWith (pyStrip l) "Time:" then pyStrip l
    else vendorFallback ls

/-- `ReceiptProcessor.parse_vendor`, pattern loop: on a match the code takes
`match.group(1).strip()`; a non-participating group 1 (possible for the third
and fourth patterns) makes `.strip()` raise `AttributeError` on `None`. -/
def parse_vendorGo (text : String) : List RE → Except String String
  | [] => .ok (vendorFallback ((pySplit text '\n').take 3))
  | p :: ps =>
    match reSearch p text with
    | none => parse_vendorGo text ps
    | some m =>
      match m.group 1 with
      | none => .error attributeErrorMsg
      | some g =>
        if 2 < sLen (pyStrip g) then .ok (pyStrip g) else parse_vendorGo text ps

/-- `ReceiptProcessor.parse_vendor`. -/
def parse_vendor (text : String) : Except String String :=
  parse_vendorGo text vendorPatterns

/-- `ReceiptProcessor.parse_total`, pattern loop: on a match the code converts
`match.group(1).replace(',', '')` with `float` inside `try/except ValueError`;
failure falls through to the next pattern.  After the loop it collects all
amount-shaped substrings and converts the last one outside any `try`. -/
def parse_totalGo (text : String) : List RE → Except String ℚ
  | [] =>
    match (reFindAllGroup1 amountSearchPat text).getLast? with
    | some a =>
      match pyFloat (removeChar ',' a) with
      | some q => .ok q
      | none => .error valueErrorFloatMsg
    | none => .ok 0
  | p :: ps =>
    match reSearch p text with
    | none => parse_totalGo text ps
    | some m =>
      match m.group 1 with
      | none => .error attributeErrorMsg
      | some g =>
        match pyFloat (removeChar ',' g) with
        | some q => .ok q
        | none => parse_totalGo text ps

/-- `ReceiptProcessor.parse_total`. -/
def parse_total (text : String) : Except String ℚ :=
  parse_totalGo text totalPatterns

/-- The fixed payment-method vocabulary, in the order declared in the source. -/
def paymentMethods : List String :=
  ["cash", "credit", "debit", "visa", "mastercard", "amex", "discover",
   "paypal", "venmo", "apple pay", "google pay", "mobile pay"]

/-- The `for method in methods` loop of `parse_payment_method`. -/
def ppmGo (tl : String) : List String → String
  | [] => "Unknown"
  | m :: ms => if hasSub m.data tl.data then pyCapitalize m else ppmGo tl ms

/-- `ReceiptProcessor.parse_payment_method`: first vocabulary entry occurring
as a substring of the lower-cased text, capitalized; else `"Unknown"`. -/
def parse_payment_method (text : String) : String :=
  ppmGo (pyLower text) paymentMethods

/-- The specification's description of `parse_payment_method` (§4.4), stated
independently with `List.find?`, for the refinement comparison. -/
def parse_payment_method_spec (text : String) : String :=
  match paymentMethods.find? (fun m => hasSub m.data (pyLower text).data) with
  | some m => pyCapitalize m
  | none => "Unknown"

/-- One line item, with Python's `int` as `ℤ` and its parsed decimals as `ℚ`. -/
structure LineItem where
  description : String
  quantity : Int
  unit_price : ℚ
  total_price : ℚ
  category : String
deriving Repr, DecidableEq

/-- `group.replace('$', '').replace(',', '')`: only the dollar sign and commas
are removed; the other currency characters admitted by the pattern survive
into `float`. -/
def stripDollarComma (s : String) : String := removeChar ',' (removeChar '$' s)

/-- `ReceiptProcessor.parse_items`, line loop: `int`/`float` conversions are
not guarded by any `try`, so a conversion failure aborts the whole call. -/
def parse_itemsGo : List String → Except String (List LineItem)
  | [] => .ok []
  | l :: ls =>
    match reSearch itemPat l with
    | none => parse_itemsGo ls
    | some m =>
      match m.group 1 with
      | none => .error attributeErrorMsg
      | some g1 =>
        match m.group 2 with
        | none => .error attributeErrorMsg
        | some g2 =>
          match m.group 3 with
          | none => .error attributeErrorMsg
          | some g3 =>
            match m.group 4 with
            | none => .error attributeErrorMsg
            | some g4 =>
              match pyInt g2 with
              | none => .error valueErrorIntMsg
              | some q =>
                match pyFloat (stripDollarComma g3) with
                | none => .error valueErrorFloatMsg
                | some u =>
                  match pyFloat (stripDollarComma g4) with
                  | none => .error valueErrorFloatMsg
                  | some t =>
                    (parse_itemsGo ls).map
                      (fun items => ⟨pyStrip g1, q, u, t, "general"⟩ :: items)

/-- `ReceiptProcessor.parse_items`. -/
def parse_items (text : String) : Except String (List LineItem) :=
  parse_itemsGo (pySplit text '\n')

/-! ### The assembler -/

/-- The output record; the error path adds an `error` field, modelled as an
`Option` that is `none` on the success path. -/
structure ReceiptRecord where
  error : Option String
  vendor : String
  date : String
  total : ℚ
  payment_method : String
  currency : String
  raw_text : String
  confidence : ℚ
  items : List LineItem
deriving Repr, DecidableEq

/-- The `try` block of `process_receipt`: acquisition, then the five parsers
in source order; the first raised exception aborts the block. -/
def buildRecord (today : String) (acquired : Except String String) :
    Except String ReceiptRecord :=
  match acquired with
  | .error e => .error e
  | .ok text =>
    match parse_vendor text with
    | .error e => .error e
    | .ok vendor =>
      match parse_date text with
      | .error e => .error e
      | .ok dateOpt =>
        match parse_total text with
        | .error e => .error e
        | .ok total =>
          match parse_items text with
          | .error e => .error e
          | .ok items =>
            .ok { error := none, vendor := vendor, date := dateOpt.getD today,
                  total := total, payment_method := parse_payment_method text,
                  currency := "USD", raw_text := text,
                  confidence := if 0 < items.length then (0.95 : ℚ) else 0.85,
                  items := items }

/-- `ReceiptProcessor.process_receipt`: the single recovery boundary — any
exception from the `try` block yields the error record. -/
def process_receipt (today : String) (acquired : Except String String) : ReceiptRecord :=
  match buildRecord today acquired with
  | .ok r => r
  | .error e =>
    { error := some e, vendor := "Unknown", date := today, total := 0,
      payment_method := "Unknown", currency := "USD", raw_text := "",
      confidence := 0.5, items := [] }

/-! ### Invariant lemmas -/

lemma pyFloat_nonneg (s : String) (q : ℚ) (h : pyFloat s = some q) : 0 ≤ q := by
  unfold pyFloat at h
  split at h
  · split at h
    · injection h with h
      subst h
      positivity
    · exact Option.noConfusion h
  · split at h
    · injection h with h
      subst h
      exact Rat.mkRat_nonneg (by positivity) _
    · exact Option.noConfusion h
  · exact Option.noConfusion h

lemma pyInt_nonneg (s : String) (n : Int) (h : pyInt s = some n) : 0 ≤ n := by
  unfold pyInt at h
  split at h
  · injection h with h
    subst h
    positivity
  · exact Option.noConfusion h

lemma parse_totalGo_nonneg (text : String) :
    ∀ (ps : List RE) (q : ℚ), parse_totalGo text ps = .ok q → 0 ≤ q := by
  intro ps
  induction ps with
  | nil =>
    intro q h
    unfold parse_totalGo at h
    split at h
    case _ a =>
      split at h
      case _ q0 hpf =>
        injection h with h
        subst h
        exact pyFloat_nonneg _ _ hpf
      case _ => exact Except.noConfusion h
    case _ =>
      injection h with h
      subst h
      exact le_refl 0
  | cons p ps ih =>
    intro q h
    unfold parse_totalGo at h
    split at h
    case _ => exact ih q h
    case _ m =>
      split at h
      case _ => exact Except.noConfusion h
      case _ g =>
        split at h
        case _ q0 hpf =>
          injection h with h
          subst h
          exact pyFloat_nonneg _ _ hpf
        case _ => exact ih q h

lemma parse_total_ok_nonneg (text : String) (q : ℚ) (h : parse_total text = .ok q) : 0 ≤ q :=
  parse_totalGo_nonneg text totalPatterns q h

/-- Strippedness: neither end of the string is whitespace. -/
def trimmedB (s : String) : Bool :=
  (match s.data.head? with | some c => !pyIsSpace c | none => true) &&
  (match s.data.getLast? with | some c => !pyIsSpace c | none => true)

lemma head?_dropWhile_false (p : Char → Bool) :
    ∀ (l : List Char) (c : Char), (l.dropWhile p).head? = some c → p c = false := by
  intro l
  induction l with
  | nil => intro c h; simp at h
  | cons a t ih =>
    intro c h
    cases hp : p a
    · rw [List.dropWhile_cons, hp] at h
      simp at h
      rw [← h]
      exact hp
    · rw [List.dropWhile_cons, hp] at h
      simp only [if_true] at h
      exact ih c h

lemma getLast?_dropWhile_of_ne_nil (p : Char → Bool) :
    ∀ (l : List Char), l.dropWhile p ≠ [] → (l.dropWhile p).getLast? = l.getLast? := by
  intro l
  induction l with
  | nil => intro h; simp at h
  | cons a t ih =>
    intro h
    cases hp : p a
    · simp [List.dropWhile_cons, hp]
    · rw [List.dropWhile_cons, hp] at h ⊢
      simp only [if_true] at h ⊢
      cases t with
      | nil => simp [List.dropWhile_nil] at h
      | cons b u => rw [ih h, List.getLast?_cons_cons]

lemma pyStrip_trimmed (s : String) : trimmedB (pyStrip s) = true := by
  unfold trimmedB pyStrip pyStripList
  cases hB : (s.data.dropWhile pyIsSpace).reverse.dropWhile pyIsSpace with
  | nil => simp
  | cons b bs =>
    have hb : pyIsSpace b = false :=
      head?_dropWhile_false pyIsSpace (s.data.dropWhile pyIsSpace).reverse b (by rw [hB]; rfl)
    have hBne : (s.data.dropWhile pyIsSpace).reverse.dropWhile pyIsSpace ≠ [] := by
      rw [hB]; simp
    have h1 := getLast?_dropWhile_of_ne_nil pyIsSpace (s.data.dropWhile pyIsSpace).reverse hBne
    rw [hB, List.getLast?_reverse] at h1
    cases hA : (s.data.dropWhile pyIsSpace).head? with
    | none =>
      exfalso
      have hAnil : s.data.dropWhile pyIsSpace = [] := by
        cases hA2 : s.data.dropWhile pyIsSpace with
        | nil => rfl
        | cons x xs => rw [hA2] at hA; exact Option.noConfusion hA
      rw [hAnil] at hB
      simp at hB
    | some c =>
      have hc : pyIsSpace c = false := head?_dropWhile_false pyIsSpace s.data c hA
      rw [hA] at h1
      rw [List.head?_reverse, List.getLast?_reverse, h1]
      simp [hb, hc]

lemma parse_itemsGo_shape :
    ∀ (ls : List String) (items : List LineItem), parse_itemsGo ls = .ok items →
      ∀ it ∈ items,
        trimmedB it.description = true ∧ 0 ≤ it.quantity ∧ 0 ≤ it.unit_price ∧
          0 ≤ it.total_price ∧ it.category = "general" := by
  intro ls
  induction ls with
  | nil =>
    intro items h it hit
    unfold parse_itemsGo at h
    injection h with h
    subst h
    simp at hit
  | cons l ls ih =>
    intro items h it hit
    unfold parse_itemsGo at h
    split at h
    case _ => exact ih items h it hit
    case _ m hm =>
      split at h
      case _ => exact Except.noConfusion h
      case _ g1 hg1 =>
        split at h
        case _ => exact Except.noConfusion h
        case _ g2 hg2 =>
          split at h
          case _ => exact Except.noConfusion h
          case _ g3 hg3 =>
            split at h
            case _ => exact Except.noConfusion h
            case _ g4 hg4 =>
              split at h
              case _ => exact Except.noConfusion h
              case _ q hq =>
                split at h
                case _ => exact Except.noConfusion h
                case _ u hu =>
                  split at h
                  case _ => exact Except.noConfusion h
                  case _ t ht =>
                    cases hrec : parse_itemsGo ls with
                    | error e =>
                      rw [hrec] at h
                      exact Except.noConfusion h
                    | ok rest =>
                      rw [hrec] at h
                      injection h with h
                      subst h
                      rcases List.mem_cons.mp hit with rfl | hmem
                      · exact ⟨pyStrip_trimmed g1, pyInt_nonneg _ _ hq,
                          pyFloat_nonneg _ _ hu, pyFloat_nonneg _ _ ht, rfl⟩
                      · exact ih rest hrec it hmem

lemma parse_items_ok_shape (text : String) (items : List LineItem)
    (h : parse_items text = .ok items) :
    ∀ it ∈ items,
      trimmedB it.description = true ∧ 0 ≤ it.quantity ∧ 0 ≤ it.unit_price ∧
        0 ≤ it.total_price ∧ it.category = "general" :=
  parse_itemsGo_shape (pySplit text '\n') items h

lemma buildRecord_ok (today : String) (acq : Except String String) (r : ReceiptRecord)
    (h : buildRecord today acq = .ok r) :
    r.error = none ∧ r.currency = "USD" ∧ 0 ≤ r.total ∧
      r.confidence = (if r.items = [] then (0.85 : ℚ) else 0.95) := by
  unfold buildRecord at h
  split at h
  case _ => exact Except.noConfusion h
  case _ text =>
    split at h
    case _ => exact Except.noConfusion h
    case _ vendor hv =>
      split at h
      case _ => exact Except.noConfusion h
      case _ dOpt hd =>
        split at h
        case _ => exact Except.noConfusion h
        case _ total htot =>
          split at h
          case _ => exact Except.noConfusion h
          case _ items hitems =>
            injection h with h
            subst h
            refine ⟨rfl, rfl, parse_total_ok_nonneg text total htot, ?_⟩
            cases items with
            | nil => simp
            | cons a as => simp

lemma ppmGo_find (tl : String) :
    ∀ (ms : List String), ppmGo tl ms =
      match ms.find? (fun m => hasSub m.data tl.data) with
      | some m => pyCapitalize m
      | none => "Unknown" := by
  intro ms
  induction ms with
  | nil => rfl
  | cons m ms ih =>
    cases hm : hasSub m.data tl.data
    · simp [ppmGo, hm, ih, List.find?_cons]
    · simp [ppmGo, hm, List.find?_cons]

/-! ### The claims -/

/-- C1: for every acquisition outcome (OCR failure or any produced text,
including empty text) `process_receipt` terminates — it is a total Lean
function — and returns a well-formed record: either the success-shaped record,
or the error variant with an `error` field, vendor and payment method
`"Unknown"`, the current date, total `0.0`, no items, empty raw text and
confidence `0.5`; no exception propagates to the caller. -/
theorem process_receipt_wellformed (today : String) (acquired : Except String String) :
    (process_receipt today acquired).currency = "USD" ∧
    ((process_receipt today acquired).error = none ∨
      ((process_receipt today acquired).error.isSome = true ∧
       (process_receipt today acquired).vendor = "Unknown" ∧
       (process_receipt today acquired).payment_method = "Unknown" ∧
       (process_receipt today acquired).date = today ∧
       (process_receipt today acquired).total = 0 ∧
       (process_receipt today acquired).items = [] ∧
       (process_receipt today acquired).raw_text = "" ∧
       (process_receipt today acquired).confidence = 0.5)) := by
  unfold process_receipt
  cases hb : buildRecord today acquired with
  | ok r =>
    obtain ⟨he, hc, -, -⟩ := buildRecord_ok today acquired r hb
    exact ⟨hc, Or.inl he⟩
  | error e => exact ⟨rfl, Or.inr ⟨rfl, rfl, rfl, rfl, rfl, rfl, rfl, rfl⟩⟩

/-- C2 (code bug): the claim says a matched substring that fails date parsing
is treated as a non-match and `parse_date` never raises; but for a month-name
date such as `"Jan 15, 2024"` the fourth pattern matches while all four
fallback `strptime` formats (dash- and slash-separated only) fail, so `parsed`
is never assigned and `parsed.strftime` raises an uncaught
`UnboundLocalError`, which sends the whole record down the error path. -/
theorem parse_date_monthname_uncaught :
    parse_date "Jan 15, 2024" = .error unboundLocalMsg ∧
      (process_receipt "2026-01-01" (.ok "Jan 15, 2024")).error = some unboundLocalMsg :=
  ⟨rfl, rfl⟩

/-- C3 (code bug): for the first two labeled total patterns the amount is
capture group 2, but the code converts `match.group(1)` — the label word —
so `float` always fails and these patterns never return; `"Total: $10.00"`
is found only by the amount-shaped fallback, which returns the *last* amount
in the text (here `2.00`, not the labeled `10.00`).  The spec scenario
`"Total: $45.67"` still yields `45.67`, but via the fallback. -/
theorem parse_total_labeled_patterns_dead :
    parse_total "Total: $10.00 Tip 2.00" = .ok 2 ∧ (2 : ℚ) ≠ 10 ∧
      parse_total "Total: $45.67" = .ok (mkRat 4567 100) :=
  ⟨rfl, by norm_num, rfl⟩

/-- C4 (code bug): for the label and greeting vendor patterns the vendor name
is capture group 2, but the code returns `match.group(1).strip()` — the label
itself; on `"Store: Walmart"` it returns `"Store"`, not the vendor name
`"Walmart"` claimed by the specification. -/
theorem parse_vendor_returns_label :
    parse_vendor "Store: Walmart" = .ok "Store" ∧ "Store" ≠ "Walmart" :=
  ⟨rfl, by decide⟩

/-- C5 counterexample: the item pattern accepts a zero quantity (`\d+`), so a
line `"Coffee 0 @ $1.00 $0.00"` yields a `LineItem` whose quantity is not a
positive integer, refuting the claim as stated. -/
theorem parse_items_zero_quantity_counterexample :
    parse_items "Coffee 0 @ $1.00 $0.00" =
      .ok [LineItem.mk "Coffee" 0 1 0 "general"] ∧
    ¬ 0 < (LineItem.mk "Coffee" 0 1 0 "general").quantity :=
  ⟨rfl, by decide⟩

/-- C5 (amended): every `LineItem` returned by a successful `parse_items` has
a whitespace-trimmed (possibly empty) description, a non-negative integer
quantity, non-negative unit and total prices, and category `"general"`. -/
theorem parse_items_field_invariants (text : String) (items : List LineItem)
    (it : LineItem) (h : parse_items text = .ok items) (hit : it ∈ items) :
    trimmedB it.description = true ∧ 0 ≤ it.quantity ∧ 0 ≤ it.unit_price ∧
      0 ≤ it.total_price ∧ it.category = "general" :=
  parse_items_ok_shape text items h it hit

/-- C5 witness: the amended invariants instantiated on the item parsed from
`"Tea 3 @ $2.00 $6.00"`. -/
theorem parse_items_field_invariants_witness :
    trimmedB (LineItem.mk "Tea" 3 2 6 "general").description = true ∧
      0 ≤ (LineItem.mk "Tea" 3 2 6 "general").quantity ∧
      0 ≤ (LineItem.mk "Tea" 3 2 6 "general").unit_price ∧
      0 ≤ (LineItem.mk "Tea" 3 2 6 "general").total_price ∧
      (LineItem.mk "Tea" 3 2 6 "general").category = "general" :=
  parse_items_field_invariants "Tea 3 @ $2.00 $6.00" [LineItem.mk "Tea" 3 2 6 "general"]
    (LineItem.mk "Tea" 3 2 6 "general") rfl (by simp)

/-- C6: on every path the returned total is non-negative and the confidence
lies in `[0,1]`; it is exactly `0.95` on the success path with at least one
item, `0.85` on the success path with no items, and `0.5` on the error path. -/
theorem process_receipt_confidence_total_invariants
    (today : String) (acquired : Except String String) :
    0 ≤ (process_receipt today acquired).total ∧
    0 ≤ (process_receipt today acquired).confidence ∧
    (process_receipt today acquired).confidence ≤ 1 ∧
    (process_receipt today acquired).confidence =
      (if (process_receipt today acquired).error.isSome = true then (0.5 : ℚ)
       else if (process_receipt today acquired).items = [] then 0.85 else 0.95) := by
  unfold process_receipt
  cases hb : buildRecord today acquired with
  | ok r =>
    obtain ⟨he, -, htot, hconf⟩ := buildRecord_ok today acquired r hb
    refine ⟨htot, ?_, ?_, ?_⟩
    · rw [hconf]; split <;> norm_num
    · rw [hconf]; split <;> norm_num
    · rw [hconf, he]; simp
  | error e =>
    exact ⟨le_refl 0, by norm_num, by norm_num, by norm_num⟩

/-- C7: whenever the first (slash-separated) date pattern's leftmost match in
the text is exactly `"03/15/2024"`, `parse_date` parses it as
month/day/4-digit-year and returns it normalized, `"2024-03-15"`. -/
theorem parse_date_slash_first_match (text : String) (m : RMatch)
    (h : reSearch datePat1 text = some m) (hg : RMatch.matched m = "03/15/2024") :
    parse_date text = .ok (some "2024-03-15") := by
  unfold parse_date datePatterns parse_dateGo
  simp only [h]
  rw [hg]
  rfl

/-- C7 witness: the theorem applied to the text `"Date: 03/15/2024"`. -/
theorem parse_date_slash_first_match_witness :
    parse_date "Date: 03/15/2024" = .ok (some "2024-03-15") :=
  parse_date_slash_first_match "Date: 03/15/2024" ⟨"03/15/2024".data, []⟩ rfl rfl

/-- C8 (code bug): the scenario line `"Coffee 2 @ $3.50 $7.00"` alone does
produce exactly the claimed item; but the claim quantifies over every text
containing the line, and a sibling line with a non-dollar currency sign (the
price replace strips only `'$'` and `','`) makes the unguarded `float` raise
`ValueError`, aborting `parse_items` so the record takes the error path with
no items at all. -/
theorem parse_items_scenario_and_crash :
    parse_items "Coffee 2 @ $3.50 $7.00" =
      .ok [LineItem.mk "Coffee" 2 (mkRat 7 2) 7 "general"] ∧
    parse_items "Tea 1 @ Ł2.00 Ł2.00\nCoffee 2 @ $3.50 $7.00" = .error valueErrorFloatMsg ∧
    (process_receipt "2026-01-01"
        (.ok "Tea 1 @ Ł2.00 Ł2.00\nCoffee 2 @ $3.50 $7.00")).error =
      some valueErrorFloatMsg ∧
    (process_receipt "2026-01-01"
        (.ok "Tea 1 @ Ł2.00 Ł2.00\nCoffee 2 @ $3.50 $7.00")).items = [] :=
  ⟨rfl, rfl, rfl, rfl⟩

/-- C9: `parse_payment_method` returns the first vocabulary entry (in declared
order) occurring case-insensitively in the text, capitalized, and `"Unknown"`
otherwise; in particular a text mentioning both `"visa"` and `"cash"` yields
`"Cash"`, since `"cash"` is first in the list. -/
theorem parse_payment_method_vocab_order (text : String)
    (hc : hasSub "cash".data (pyLower text).data = true)
    (_hv : hasSub "visa".data (pyLower text).data = true) :
    parse_payment_method text = parse_payment_method_spec text ∧
      parse_payment_method text = "Cash" := by
  refine ⟨ppmGo_find (pyLower text) paymentMethods, ?_⟩
  show ppmGo (pyLower text) paymentMethods = "Cash"
  unfold paymentMethods ppmGo
  rw [hc]
  rfl

/-- C9 witness: the theorem applied to `"paid with visa and cash"`. -/
theorem parse_payment_method_vocab_order_witness :
    parse_payment_method "paid with visa and cash" = "Cash" :=
  (parse_payment_method_vocab_order "paid with visa and cash" (by decide) (by decide)).2

/-- C10 counterexample: for `"03/15/24"`, whose first date-shaped match is
slash-separated with a two-digit year, `parse_date` returns `none` (absent) —
not a date string with year 24 as the claim asserts: CPython's `%Y` requires
exactly four digits, so `strptime` raises and the match is abandoned. -/
theorem parse_date_two_digit_slash_counterexample :
    parse_date "03/15/24" = .ok none ∧
      parse_date "03/15/24" ≠ .ok (some "24-03-15") := by
  refine ⟨rfl, fun hcon => ?_⟩
  have h0 : parse_date "03/15/24" = .ok none := rfl
  rw [h0] at hcon
  exact Option.noConfusion (Except.ok.inj hcon)

/-- C10 (amended): a slash-separated match is attempted only with
`%m/%d/%Y`, whose year field requires exactly four digits; a two-digit year
therefore fails to parse, the `except ValueError` moves on to the remaining
patterns, and when none of them matches `parse_date` returns absent — the
two-digit-year slash formats in the fallback list are unreachable for it. -/
theorem parse_date_two_digit_slash_amended :
    strptime_mdY_slash "03/15/24" = none ∧
      parse_date "03/15/24" = .ok none ∧
      parse_date "Paid 03/15/24 thanks" = .ok none :=
  ⟨rfl, rfl, rfl⟩
